import Mathlib

/-!
Verification development for the yarngpt-sdk resilient request layer.

The Python source is embedded shallowly:
* exception classes become the sum type `Exc`;
* `RetryConfig`, `calculate_backoff`, `should_retry` and the `with_retry`
  decorator (retry.py) become pure Lean functions; the randomness used by
  jitter is passed in explicitly as the value of `random.random()`, and the
  sleep between attempts is not observable in a value-level model;
* the HTTP transport is a function from the request payload and the
  invocation index to either an httpx-level failure or an `HttpResponse`;
* the response-interpretation chain of `_make_request`
  (async_client.py) / `text_to_speech` (client.py) becomes
  `interpret_response`, and the two conversion paths become
  `tts_counted` (async, retry-wrapped) and `sync_tts_counted`
  (sync, single shot), each also reporting how many transport
  invocations were made;
* `asyncio.gather` over a list of deterministic tasks is modelled by
  `gather`, which returns the results in task order and otherwise the
  error of the first failing task in list order (completion order is
  deterministic for a deterministic transport).
-/

deriving instance DecidableEq for Except

namespace YarnGPT

/-- Audio bytes returned by a successful conversion. -/
abbrev Bytes := List Nat

/-- The Python exception classes that can cross the retry layer:
the yarngpt exception hierarchy (exceptions.py) plus the httpx
exception kinds inspected by `should_retry` (retry.py). -/
inductive Exc where
  | authenticationError (msg : String)
  | validationError (msg : String)
  | quotaExceededError (msg : String)
  | paymentRequiredError (msg : String)
  | apiError (msg : String)
  | httpxTimeout (msg : String)
  | httpxNetworkError (msg : String)
  | httpxHTTPStatusError (status : Nat)
  | otherError (msg : String)
deriving DecidableEq, Repr

/-- `RetryConfig` dataclass fields (retry.py). `max_retries` is an `Int`
because Python allows a negative value to reach `__post_init__`. -/
structure RetryConfig where
  max_retries : Int
  backoff_factor : ℚ
  max_backoff : ℚ
  retry_statuses : List Nat
  jitter : Bool
deriving DecidableEq, Repr

/-- Default value of the `retry_statuses` field. -/
def defaultRetryStatuses : List Nat := [429, 500, 502, 503, 504]

/-- `RetryConfig()` with all dataclass defaults. -/
def defaultRetryConfig : RetryConfig :=
  ⟨3, 2, 60, defaultRetryStatuses, true⟩

/-- `RetryConfig.__post_init__`: the validation run at construction time. -/
def RetryConfig.post_init (c : RetryConfig) : Except String RetryConfig :=
  if c.max_retries < 0 then .error "max_retries must be >= 0"
  else if c.backoff_factor < 1 then .error "backoff_factor must be >= 1"
  else if c.max_backoff < 0 then .error "max_backoff must be >= 0"
  else .ok c

/-- Constructing a `RetryConfig`: the dataclass constructor immediately
followed by `__post_init__`. -/
def mkRetryConfig (max_retries : Int) (backoff_factor max_backoff : ℚ)
    (retry_statuses : List Nat) (jitter : Bool) : Except String RetryConfig :=
  RetryConfig.post_init ⟨max_retries, backoff_factor, max_backoff, retry_statuses, jitter⟩

/-- `calculate_backoff` (retry.py). `rand` is the value returned by
`random.random()`, a rational in `[0,1)`; it is only read when
`config.jitter` is set. -/
def calculate_backoff (attempt : Nat) (config : RetryConfig) (rand : ℚ) : ℚ :=
  let backoff := min (config.backoff_factor ^ attempt) config.max_backoff
  if config.jitter then backoff * (1/2 + rand) else backoff

/-- `should_retry` (retry.py): budget check first, then the isinstance
chain in source order. -/
def should_retry (exception : Exc) (attempt : Nat) (config : RetryConfig) : Bool :=
  if (attempt : Int) ≥ config.max_retries then false
  else
    match exception with
    | .authenticationError _ => false
    | .quotaExceededError _ => false
    | .httpxTimeout _ => true
    | .httpxNetworkError _ => true
    | .httpxHTTPStatusError status => config.retry_statuses.contains status
    | _ => false

/-- The wrapped operation: the value or exception produced by the
invocation with the given 0-indexed attempt number. -/
def Op (α : Type) := Nat → Except Exc α

/-- The loop body of the `with_retry` wrapper (retry.py): iterate the
remaining `fuel` attempts starting at `attempt`, remembering the last
exception; returns the outcome together with the number of invocations
made.  `fuel = 0` corresponds to the loop falling through, where the
source re-raises `last_exception`. -/
def with_retry_aux (config : RetryConfig) (op : Op α) :
    (fuel attempt : Nat) → (last : Option Exc) → Except Exc α × Nat
  | 0, _, last =>
    (match last with
     | some e => .error e
     | none => .error (.otherError "retry loop made no attempt"), 0)
  | fuel + 1, attempt, _ =>
    match op attempt with
    | .ok v => (.ok v, 1)
    | .error e =>
      if should_retry e attempt config then
        let r := with_retry_aux config op fuel (attempt + 1) (some e)
        (r.1, r.2 + 1)
      else (.error e, 1)

/-- The `with_retry` wrapper (retry.py): `for attempt in
range(config.max_retries + 1)` starting from attempt 0. -/
def with_retry (config : RetryConfig) (op : Op α) : Except Exc α × Nat :=
  with_retry_aux config op (config.max_retries.toNat + 1) 0 none

/-- Voice characters (models.py).  The enum value is the string sent on
the wire. -/
inductive Voice where
  | IDERA | EMMA | ZAINAB | OSAGIE | WURA | JUDE | CHINENYE | TAYO
  | REGINA | FEMI | ADAORA | UMAR | MARY | NONSO | REMI | ADAM
deriving DecidableEq, Repr

/-- The `.value` of each `Voice` member (models.py). -/
def Voice.value : Voice → String
  | .IDERA => "Idera"
  | .EMMA => "Emma"
  | .ZAINAB => "Zainab"
  | .OSAGIE => "Osagie"
  | .WURA => "Wura"
  | .JUDE => "Jude"
  | .CHINENYE => "Chinenye"
  | .TAYO => "Tayo"
  | .REGINA => "Regina"
  | .FEMI => "Femi"
  | .ADAORA => "Adaora"
  | .UMAR => "Umar"
  | .MARY => "Mary"
  | .NONSO => "Nonso"
  | .REMI => "Remi"
  | .ADAM => "Adam"

/-- Audio formats (models.py). -/
inductive AudioFormat where
  | MP3 | WAV | OPUS | FLAC
deriving DecidableEq, Repr

/-- The `.value` of each `AudioFormat` member (models.py). -/
def AudioFormat.value : AudioFormat → String
  | .MP3 => "mp3"
  | .WAV => "wav"
  | .OPUS => "opus"
  | .FLAC => "flac"

/-- The `voice` argument of `text_to_speech`: either a `Voice` enum
member or an arbitrary string (the code accepts both). -/
inductive VoiceArg where
  | enum (v : Voice)
  | str (s : String)
deriving DecidableEq, Repr

/-- The `response_format` argument: an `AudioFormat` member or an
arbitrary string. -/
inductive FormatArg where
  | enum (f : AudioFormat)
  | str (s : String)
deriving DecidableEq, Repr

/-- `voice.value if isinstance(voice, Voice) else str(voice)`:
`str` over a Python string is the identity. -/
def VoiceArg.toWire : VoiceArg → String
  | .enum v => v.value
  | .str s => s

/-- `response_format.value if isinstance(..., AudioFormat) else str(...)`. -/
def FormatArg.toWire : FormatArg → String
  | .enum f => f.value
  | .str s => s

/-- The JSON payload of the POST to `{base_url}/tts`: `text` always
present, `voice` and `response_format` present only when supplied. -/
structure Payload where
  text : String
  voice : Option String
  response_format : Option String
deriving DecidableEq, Repr

/-- Payload assembly shared by client.py and async_client.py. -/
def build_payload (text : String) (voice : Option VoiceArg)
    (response_format : Option FormatArg) : Payload :=
  ⟨text, voice.map VoiceArg.toWire, response_format.map FormatArg.toWire⟩

/-- An HTTP response as the client observes it: the status code, the
`error` field of the JSON body when the body parses to an object
carrying one (`None` both when parsing fails and when the field is
absent, matching the `try: ... .get("error", default) except: pass`
idiom), the raw body text, and the binary content. -/
structure HttpResponse where
  status_code : Nat
  body_error : Option String
  text : String
  content : Bytes
deriving DecidableEq, Repr

/-- The HTTP transport: for a payload and a 0-indexed invocation number,
either an httpx-level failure (timeout or network error) or a response.
Determinism of the transport is determinism of this function. -/
def Transport := Payload → Nat → Except Exc HttpResponse

/-- Fixed message used for status 429 when the body carries no `error`
field (client.py / async_client.py). -/
def quotaDefaultMsg : String :=
  "Daily API quota exceeded. YarnGPT free tier limits: 80 TTS requests/day. Please wait 24 hours or upgrade your account at https://yarngpt.ai/account"

/-- The status-code dispatch shared verbatim by `YarnGPT.text_to_speech`
(client.py) and `AsyncYarnGPT._make_request` (async_client.py): 401,
429, 400, 402, 403 are special-cased in that order, every other
non-200 status becomes a generic `APIError`, and 200 yields the body. -/
def interpret_response (r : HttpResponse) : Except Exc Bytes :=
  if r.status_code = 401 then
    .error (.authenticationError "Invalid API key")
  else if r.status_code = 429 then
    .error (.quotaExceededError (r.body_error.getD quotaDefaultMsg))
  else if r.status_code = 400 then
    .error (.validationError (r.body_error.getD "Invalid request parameters"))
  else if r.status_code = 402 then
    .error (.paymentRequiredError "Payment required. Please check your account balance or subscription.")
  else if r.status_code = 403 then
    .error (.authenticationError "Access forbidden. Please check your API key permissions.")
  else if r.status_code ≠ 200 then
    .error (.apiError ("API request failed with status " ++ toString r.status_code ++ ": " ++ r.text))
  else
    .ok r.content

/-- One invocation of the request body: the POST through the transport
followed by response interpretation; a transport-level exception
escapes unhandled (as it does in `_make_request`). -/
def make_request_attempt (transport : Transport) (payload : Payload) : Op Bytes :=
  fun i =>
    match transport payload i with
    | .error e => .error e
    | .ok r => interpret_response r

/-- Maximum accepted text length (`MAX_TEXT_LENGTH`). -/
def MAX_TEXT_LENGTH : Nat := 2000

/-- Message raised when the text is too long. -/
def lengthMsg (text : String) : String :=
  "Text length (" ++ toString text.length ++ ") exceeds maximum of " ++
    toString MAX_TEXT_LENGTH ++ " characters"

/-- The two validation checks at the top of `text_to_speech` (identical
in client.py and async_client.py): `if not text` is string truthiness,
that is emptiness. -/
def validate_text (text : String) : Except Exc Unit :=
  if text.length = 0 then .error (.validationError "Text cannot be empty")
  else if text.length > MAX_TEXT_LENGTH then .error (.validationError (lengthMsg text))
  else .ok ()

/-- The `except httpx.TimeoutException / except httpx.RequestError`
clauses wrapping the request in both clients: httpx-level failures are
rewrapped into `APIError`; every other outcome passes through. -/
def wrap_transport_errors (r : Except Exc Bytes) : Except Exc Bytes :=
  match r with
  | .error (.httpxTimeout m) => .error (.apiError ("Request timed out: " ++ m))
  | .error (.httpxNetworkError m) => .error (.apiError ("Request failed: " ++ m))
  | x => x

/-- The request phase of the async conversion after validation:
`_make_request` wrapped by `with_retry_async`, then the two `except`
clauses of `text_to_speech`; also reports the number of transport
invocations. -/
def request_phase (cfg : RetryConfig) (transport : Transport) (payload : Payload) :
    Except Exc Bytes × Nat :=
  let r := with_retry cfg (make_request_attempt transport payload)
  (wrap_transport_errors r.1, r.2)

/-- `AsyncYarnGPT.text_to_speech` (async_client.py): validation, payload
assembly, then the retry-wrapped request; paired with the number of
transport invocations made. -/
def tts_counted (cfg : RetryConfig) (transport : Transport) (text : String)
    (voice : Option VoiceArg) (response_format : Option FormatArg) :
    Except Exc Bytes × Nat :=
  match validate_text text with
  | .error e => (.error e, 0)
  | .ok _ => request_phase cfg transport (build_payload text voice response_format)

/-- The result of the async conversion. -/
def text_to_speech (cfg : RetryConfig) (transport : Transport) (text : String)
    (voice : Option VoiceArg) (response_format : Option FormatArg) :
    Except Exc Bytes :=
  (tts_counted cfg transport text voice response_format).1

/-- `YarnGPT.text_to_speech` (client.py): same validation, payload and
interpretation, but a single POST with no retry wrapper, the httpx
except clauses applied directly. -/
def sync_tts_counted (transport : Transport) (text : String)
    (voice : Option VoiceArg) (response_format : Option FormatArg) :
    Except Exc Bytes × Nat :=
  match validate_text text with
  | .error e => (.error e, 0)
  | .ok _ =>
    (wrap_transport_errors
      (make_request_attempt transport (build_payload text voice response_format) 0), 1)

/-- `asyncio.gather` over an ordered list of already-determined task
outcomes: all successes give the values in task order; otherwise the
error of the first failing task (the deterministic completion order of
a deterministic transport is the start order). -/
def gather : List (Except Exc Bytes) → Except Exc (List Bytes)
  | [] => .ok []
  | r :: rs =>
    match r with
    | .error e => .error e
    | .ok a =>
      match gather rs with
      | .error e => .error e
      | .ok rest => .ok (a :: rest)

/-- The sequential branch of `batch_text_to_speech`: convert one text at
a time in input order, propagating the first failure. -/
def batch_sequential (conv : String → Except Exc Bytes) :
    List String → Except Exc (List Bytes)
  | [] => .ok []
  | t :: ts =>
    match conv t with
    | .error e => .error e
    | .ok a =>
      match batch_sequential conv ts with
      | .error e => .error e
      | .ok rest => .ok (a :: rest)

/-- `AsyncYarnGPT.batch_text_to_speech` (async_client.py): concurrent
mode launches one conversion task per text and gathers them in input
order; sequential mode awaits them one at a time. -/
def batch_text_to_speech (cfg : RetryConfig) (transport : Transport)
    (voice : Option VoiceArg) (response_format : Option FormatArg)
    (concurrent : Bool) (texts : List String) : Except Exc (List Bytes) :=
  if concurrent then
    gather (texts.map (fun t => text_to_speech cfg transport t voice response_format))
  else
    batch_sequential (fun t => text_to_speech cfg transport t voice response_format) texts

/-- Spec vocabulary (§4.1): kinds that will not self-resolve by waiting. -/
def nonSelfResolving : Exc → Bool
  | .authenticationError _ => true
  | .quotaExceededError _ => true
  | _ => false

/-- Spec vocabulary (§4.1): kinds transient by nature. -/
def transientByNature : Exc → Bool
  | .httpxTimeout _ => true
  | .httpxNetworkError _ => true
  | _ => false

/-- Spec vocabulary (§4.1): the status code carried by an
HTTP-status-carrying error, if any. -/
def carriedStatus : Exc → Option Nat
  | .httpxHTTPStatusError s => some s
  | _ => none

/-- The retry-eligibility decision written from the words of the spec
(§4.1 `shouldRetry`): budget check short-circuits before any
classification; `Authentication`/`QuotaExceeded` never retry; network
kinds always retry; a status-carrying error retries exactly when its
status is in `retryableStatuses`; every other kind does not retry.
Stated separately from `should_retry` so the two can be compared. -/
def shouldRetrySpec (error : Exc) (attemptNumber : Nat) (config : RetryConfig) : Bool :=
  if (attemptNumber : Int) ≥ config.max_retries then false
  else if nonSelfResolving error then false
  else if transientByNature error then true
  else
    match carriedStatus error with
    | some s => config.retry_statuses.contains s
    | none => false

/-- A transport whose every response has status 500. -/
def tr500 : Transport := fun _ _ => .ok ⟨500, none, "boom", []⟩

/-- A transport that times out on every invocation. -/
def trTimeout : Transport := fun _ _ => .error (.httpxTimeout "t")

/-- A transport that succeeds on every invocation. -/
def tr200 : Transport := fun _ _ => .ok ⟨200, none, "", [7]⟩

/-- A transport whose every response is a 429 carrying a body error. -/
def tr429 : Transport := fun _ _ => .ok ⟨429, some "Quota exceeded", "", []⟩

/-- A deterministic transport that rejects the payload whose text is
`bad` with a 401 and accepts every other payload. -/
def trFailBad : Transport := fun p _ =>
  if p.text = "bad" then .ok ⟨401, none, "", []⟩ else .ok ⟨200, none, "", [7]⟩

/-- A retry configuration with `max_retries = 2` and no jitter. -/
def cfgTwo : RetryConfig := ⟨2, 2, 60, defaultRetryStatuses, false⟩

/-- An operation that always times out. -/
def opTimeout : Op Bytes := fun _ => .error (.httpxTimeout "boom")

/-- An operation that fails once with an authentication error. -/
def opAuth : Op Bytes := fun _ => .error (.authenticationError "Invalid API key")

/-- An operation that times out on its first two invocations and then
succeeds. -/
def opFlaky : Op Bytes := fun i =>
  if i < 2 then .error (.httpxTimeout "boom") else .ok [1]

/-! ## Helper lemmas on the retry policy -/

theorem should_retry_budget (e : Exc) (n : Nat) (cfg : RetryConfig)
    (h : (n : Int) ≥ cfg.max_retries) : should_retry e n cfg = false := by
  unfold should_retry
  rw [if_pos h]

theorem should_retry_api (m : String) (n : Nat) (cfg : RetryConfig) :
    should_retry (.apiError m) n cfg = false := by
  unfold should_retry
  split <;> rfl

theorem should_retry_quota (m : String) (n : Nat) (cfg : RetryConfig) :
    should_retry (.quotaExceededError m) n cfg = false := by
  unfold should_retry
  split <;> rfl

theorem should_retry_auth (m : String) (n : Nat) (cfg : RetryConfig) :
    should_retry (.authenticationError m) n cfg = false := by
  unfold should_retry
  split <;> rfl

theorem should_retry_timeout (m : String) (n : Nat) (cfg : RetryConfig)
    (h : (n : Int) < cfg.max_retries) : should_retry (.httpxTimeout m) n cfg = true := by
  unfold should_retry
  rw [if_neg (by omega)]

theorem should_retry_network (m : String) (n : Nat) (cfg : RetryConfig)
    (h : (n : Int) < cfg.max_retries) : should_retry (.httpxNetworkError m) n cfg = true := by
  unfold should_retry
  rw [if_neg (by omega)]

/-- The induction core for the retry loop: starting at attempt `a` with
`fuel` attempts left, if the first `k` attempts fail with retryable
errors then the outcome at attempt `a + k` decides the run, and `k + 1`
invocations are made. -/
theorem with_retry_aux_spec (cfg : RetryConfig) (op : Op α) :
    ∀ (k a fuel : Nat), k < fuel →
    (∀ i, i < k → ∃ e, op (a + i) = .error e ∧ should_retry e (a + i) cfg = true) →
    (∀ v, op (a + k) = .ok v →
      ∀ last, with_retry_aux cfg op fuel a last = (.ok v, k + 1)) ∧
    (∀ e, op (a + k) = .error e → should_retry e (a + k) cfg = false →
      ∀ last, with_retry_aux cfg op fuel a last = (.error e, k + 1)) := by
  intro k
  induction k with
  | zero =>
    intro a fuel hfuel _
    match fuel, hfuel with
    | fuel + 1, _ =>
      constructor
      · intro v hv last
        simp only [Nat.add_zero] at hv
        simp [with_retry_aux, hv]
      · intro e he hsr last
        simp only [Nat.add_zero] at he hsr
        simp [with_retry_aux, he, hsr]
  | succ k ih =>
    intro a fuel hfuel hpre
    match fuel, hfuel with
    | fuel + 1, hfuel =>
      obtain ⟨e₀, hop₀, hsr₀⟩ := hpre 0 (Nat.succ_pos k)
      simp only [Nat.add_zero] at hop₀ hsr₀
      have hk : k < fuel := Nat.lt_of_succ_lt_succ hfuel
      have hpre' : ∀ i, i < k →
          ∃ e, op (a + 1 + i) = .error e ∧ should_retry e (a + 1 + i) cfg = true := by
        intro i hi
        have hx : a + 1 + i = a + (i + 1) := by omega
        rw [hx]
        exact hpre (i + 1) (by omega)
      have ih' := ih (a + 1) fuel hk hpre'
      have hidx : a + 1 + k = a + (k + 1) := by omega
      constructor
      · intro v hv last
        rw [← hidx] at hv
        have hrec := ih'.1 v hv (some e₀)
        simp [with_retry_aux, hop₀, hsr₀, hrec]
      · intro e he hsr last
        rw [← hidx] at he hsr
        have hrec := ih'.2 e he hsr (some e₀)
        simp [with_retry_aux, hop₀, hsr₀, hrec]

/-- The retry loop from attempt 0: specialisation of
`with_retry_aux_spec` to the full `max_retries + 1` budget. -/
theorem with_retry_run (cfg : RetryConfig) (op : Op α) (k : Nat)
    (hk : k ≤ cfg.max_retries.toNat)
    (hpre : ∀ i, i < k → ∃ e, op i = .error e ∧ should_retry e i cfg = true) :
    (∀ v, op k = .ok v → with_retry cfg op = (.ok v, k + 1)) ∧
    (∀ e, op k = .error e → should_retry e k cfg = false →
      with_retry cfg op = (.error e, k + 1)) := by
  have h := with_retry_aux_spec cfg op k 0 (cfg.max_retries.toNat + 1) (by omega)
    (by simpa using hpre)
  simp only [Nat.zero_add] at h
  constructor
  · intro v hv
    exact h.1 v hv none
  · intro e he hsr
    exact h.2 e he hsr none

/-! ## Claim theorems -/

/-- Claim C2: for every exception, attempt number and config,
`should_retry` equals the reference decision of the spec: false once the
attempt budget is exhausted (checked before any classification), false
for the authentication and quota kinds, true for the two network kinds,
true for a status-carrying error exactly when its status is in the
retryable set, and false for every other kind. -/
theorem should_retry_matches_reference (e : Exc) (n : Nat) (cfg : RetryConfig) :
    should_retry e n cfg = shouldRetrySpec e n cfg := by
  cases e <;>
    simp [should_retry, shouldRetrySpec, nonSelfResolving, transientByNature, carriedStatus]

/-- Claim C3: the request executor with budget `max_retries`: if the
first `k` invocations fail retryably, then a success at invocation
`k + 1` is returned after exactly `k + 1` invocations; a non-retryable
failure there propagates verbatim after exactly `k + 1` invocations with
no further attempts; and at the last budgeted attempt any failure is
surfaced verbatim, for a total of `max_retries + 1` invocations. -/
theorem request_executor_attempts (cfg : RetryConfig) (op : Op Bytes) (k : Nat)
    (hk : k ≤ cfg.max_retries.toNat)
    (hpre : ∀ i, i < k → ∃ e, op i = .error e ∧ should_retry e i cfg = true) :
    (∀ v, op k = .ok v → with_retry cfg op = (.ok v, k + 1)) ∧
    (∀ e, op k = .error e → should_retry e k cfg = false →
      with_retry cfg op = (.error e, k + 1)) ∧
    (k = cfg.max_retries.toNat → ∀ e, op k = .error e →
      with_retry cfg op = (.error e, k + 1)) := by
  have h := with_retry_run cfg op k hk hpre
  refine ⟨h.1, h.2, ?_⟩
  intro hkmax e he
  refine h.2 e he (should_retry_budget e k cfg ?_)
  rw [hkmax]
  exact Int.self_le_toNat cfg.max_retries

/-- Witness for C3: with `max_retries = 2`, an operation failing twice
with a timeout then succeeding returns the success after 3 invocations;
an always-timing-out operation surfaces the timeout verbatim after 3
invocations; an authentication failure propagates after 1 invocation. -/
theorem request_executor_attempts_witness :
    with_retry cfgTwo opFlaky = (.ok [1], 3) ∧
    with_retry cfgTwo opTimeout = (.error (.httpxTimeout "boom"), 3) ∧
    with_retry defaultRetryConfig opAuth
      = (.error (.authenticationError "Invalid API key"), 1) := by
  have hpre2 : ∀ i, i < 2 →
      ∃ e, opFlaky i = .error e ∧ should_retry e i cfgTwo = true := by
    intro i hi
    interval_cases i
    · exact ⟨.httpxTimeout "boom", rfl, rfl⟩
    · exact ⟨.httpxTimeout "boom", rfl, rfl⟩
  have hpreT : ∀ i, i < 2 →
      ∃ e, opTimeout i = .error e ∧ should_retry e i cfgTwo = true := by
    intro i hi
    interval_cases i
    · exact ⟨.httpxTimeout "boom", rfl, rfl⟩
    · exact ⟨.httpxTimeout "boom", rfl, rfl⟩
  refine ⟨?_, ?_, ?_⟩
  · exact (request_executor_attempts cfgTwo opFlaky 2 (by decide) hpre2).1 [1] rfl
  · exact (request_executor_attempts cfgTwo opTimeout 2 (by decide) hpreT).2.2 (by decide)
      (.httpxTimeout "boom") rfl
  · exact (request_executor_attempts defaultRetryConfig opAuth 0 (by decide)
      (by intro i hi; omega)).2.1 (.authenticationError "Invalid API key") rfl (by decide)

/-- Claim C4: with jitter disabled, `calculate_backoff` equals
`min(backoff_factor ^ attempt, max_backoff)` exactly and does not depend
on the drawn random value. -/
theorem calculate_backoff_no_jitter (attempt : Nat) (cfg : RetryConfig)
    (hj : cfg.jitter = false) :
    (∀ rand : ℚ, calculate_backoff attempt cfg rand
      = min (cfg.backoff_factor ^ attempt) cfg.max_backoff) ∧
    (∀ r₁ r₂ : ℚ, calculate_backoff attempt cfg r₁ = calculate_backoff attempt cfg r₂) := by
  constructor
  · intro rand
    simp [calculate_backoff, hj]
  · intro r₁ r₂
    simp [calculate_backoff, hj]

/-- Witness for C4: factor 2, cap 60, attempt 3, jitter off gives
exactly `2 ^ 3 = 8` whatever the random draw. -/
theorem calculate_backoff_no_jitter_witness :
    calculate_backoff 3 cfgTwo (1/3) = 8 ∧
    calculate_backoff 3 cfgTwo (1/3) = calculate_backoff 3 cfgTwo (2/3) := by
  constructor
  · rw [(calculate_backoff_no_jitter 3 cfgTwo rfl).1 (1/3)]
    decide
  · exact (calculate_backoff_no_jitter 3 cfgTwo rfl).2 (1/3) (2/3)

/-- Claim C7: constructing a `RetryConfig` with `max_retries < 0`,
`backoff_factor < 1` or `max_backoff < 0` fails validation at
construction time, and construction succeeds whenever all three bounds
hold. -/
theorem retry_config_fail_fast (mr : Int) (bf mb : ℚ) (rs : List Nat) (j : Bool) :
    ((mr < 0 ∨ bf < 1 ∨ mb < 0) → ∃ msg, mkRetryConfig mr bf mb rs j = .error msg) ∧
    (0 ≤ mr → 1 ≤ bf → 0 ≤ mb → mkRetryConfig mr bf mb rs j = .ok ⟨mr, bf, mb, rs, j⟩) := by
  constructor
  · intro h
    unfold mkRetryConfig RetryConfig.post_init
    rcases h with h | h | h
    · exact ⟨_, by rw [if_pos h]⟩
    · by_cases hmr : mr < 0
      · exact ⟨_, by rw [if_pos hmr]⟩
      · exact ⟨_, by rw [if_neg hmr, if_pos h]⟩
    · by_cases hmr : mr < 0
      · exact ⟨_, by rw [if_pos hmr]⟩
      · by_cases hbf : bf < 1
        · exact ⟨_, by rw [if_neg hmr, if_pos hbf]⟩
        · exact ⟨_, by rw [if_neg hmr, if_neg hbf, if_pos h]⟩
  · intro h1 h2 h3
    unfold mkRetryConfig RetryConfig.post_init
    rw [if_neg (not_lt.mpr h1), if_neg (not_lt.mpr h2), if_neg (not_lt.mpr h3)]

/-- Witness for C7: `max_retries = -1`, `backoff_factor = 1/2` and
`max_backoff = -10` each fail; the defaults succeed. -/
theorem retry_config_fail_fast_witness :
    (∃ m, mkRetryConfig (-1) 2 60 defaultRetryStatuses true = .error m) ∧
    (∃ m, mkRetryConfig 3 (1/2) 60 defaultRetryStatuses true = .error m) ∧
    (∃ m, mkRetryConfig 3 2 (-10) defaultRetryStatuses true = .error m) ∧
    mkRetryConfig 3 2 60 defaultRetryStatuses true
      = .ok ⟨3, 2, 60, defaultRetryStatuses, true⟩ := by
  refine ⟨?_, ?_, ?_, ?_⟩
  · exact (retry_config_fail_fast (-1) 2 60 defaultRetryStatuses true).1 (Or.inl (by decide))
  · exact (retry_config_fail_fast 3 (1/2) 60 defaultRetryStatuses true).1
      (Or.inr (Or.inl (by norm_num)))
  · exact (retry_config_fail_fast 3 2 (-10) defaultRetryStatuses true).1
      (Or.inr (Or.inr (by norm_num)))
  · exact (retry_config_fail_fast 3 2 60 defaultRetryStatuses true).2 (by decide)
      (by norm_num) (by norm_num)

/-- Claim C1, counterexample: under the default config a conversion
whose transport always answers with status 500 is classified as a
generic `APIError` and the transport is invoked exactly once — a
wait-and-retry never happens even though the claim requires 500 to be a
retried transient kind; and in the sync path even a transport timeout
is invoked exactly once and wrapped into `APIError` rather than
retried. -/
theorem conversion_500_not_retried_cex :
    tts_counted defaultRetryConfig tr500 "hello" none none
      = (.error (.apiError "API request failed with status 500: boom"), 1) ∧
    sync_tts_counted trTimeout "hello" none none
      = (.error (.apiError "Request timed out: t"), 1) := by
  exact ⟨by decide, by decide⟩

/-- Claim C1, amended: transport-level timeouts and connection failures
escape `_make_request` and are the kinds the async retry wrapper waits
on and retries, the exhausted error being rewrapped into `APIError` by
the conversion wrapper; HTTP responses with status 500/502/503/504 are
classified as a generic `APIError` (like every other unhandled non-200
status) and surface after a single invocation without retry; the sync
conversion path performs no retry at all, wrapping a timeout into
`APIError` after its single invocation. -/
theorem conversion_retry_classification (cfg : RetryConfig) (h0 : 0 ≤ cfg.max_retries) :
    (∀ (m : Nat → String) (tr : Transport),
      (∀ p i, tr p i = .error (.httpxTimeout (m i))) →
      ∀ text v f, validate_text text = .ok () →
        tts_counted cfg tr text v f
          = (.error (.apiError ("Request timed out: " ++ m cfg.max_retries.toNat)),
             cfg.max_retries.toNat + 1)) ∧
    (∀ (m : Nat → String) (tr : Transport),
      (∀ p i, tr p i = .error (.httpxNetworkError (m i))) →
      ∀ text v f, validate_text text = .ok () →
        tts_counted cfg tr text v f
          = (.error (.apiError ("Request failed: " ++ m cfg.max_retries.toNat)),
             cfg.max_retries.toNat + 1)) ∧
    (∀ (r : HttpResponse), r.status_code ∈ ([500, 502, 503, 504] : List Nat) →
      ∀ (tr : Transport), (∀ p i, tr p i = .ok r) →
      ∀ text v f, validate_text text = .ok () →
        tts_counted cfg tr text v f
          = (.error (.apiError ("API request failed with status "
              ++ toString r.status_code ++ ": " ++ r.text)), 1)) ∧
    (∀ (tr : Transport) (m : String),
      (∀ p i, tr p i = .error (.httpxTimeout m)) →
      ∀ text v f, validate_text text = .ok () →
        sync_tts_counted tr text v f
          = (.error (.apiError ("Request timed out: " ++ m)), 1)) := by
  have hbudget : (cfg.max_retries.toNat : Int) ≥ cfg.max_retries :=
    Int.self_le_toNat cfg.max_retries
  refine ⟨?_, ?_, ?_, ?_⟩
  · intro m tr htr text v f hval
    set op := make_request_attempt tr (build_payload text v f) with hop
    have hopi : ∀ i, op i = .error (.httpxTimeout (m i)) := by
      intro i
      simp [hop, make_request_attempt, htr]
    have hpre : ∀ i, i < cfg.max_retries.toNat →
        ∃ e, op i = .error e ∧ should_retry e i cfg = true := by
      intro i hi
      exact ⟨_, hopi i, should_retry_timeout (m i) i cfg (by omega)⟩
    have hrun := (with_retry_run cfg op cfg.max_retries.toNat le_rfl hpre).2
      _ (hopi cfg.max_retries.toNat) (should_retry_budget _ _ _ hbudget)
    simp [tts_counted, hval, request_phase, ← hop, hrun, wrap_transport_errors]
  · intro m tr htr text v f hval
    set op := make_request_attempt tr (build_payload text v f) with hop
    have hopi : ∀ i, op i = .error (.httpxNetworkError (m i)) := by
      intro i
      simp [hop, make_request_attempt, htr]
    have hpre : ∀ i, i < cfg.max_retries.toNat →
        ∃ e, op i = .error e ∧ should_retry e i cfg = true := by
      intro i hi
      exact ⟨_, hopi i, should_retry_network (m i) i cfg (by omega)⟩
    have hrun := (with_retry_run cfg op cfg.max_retries.toNat le_rfl hpre).2
      _ (hopi cfg.max_retries.toNat) (should_retry_budget _ _ _ hbudget)
    simp [tts_counted, hval, request_phase, ← hop, hrun, wrap_transport_errors]
  · intro r hs tr htr text v f hval
    have hint : interpret_response r
        = .error (.apiError ("API request failed with status "
            ++ toString r.status_code ++ ": " ++ r.text)) := by
      simp only [List.mem_cons, List.not_mem_nil, or_false] at hs
      rcases hs with h | h | h | h <;> simp [interpret_response, h]
    set op := make_request_attempt tr (build_payload text v f) with hop
    have hop0 : op 0 = .error (.apiError ("API request failed with status "
        ++ toString r.status_code ++ ": " ++ r.text)) := by
      simp [hop, make_request_attempt, htr, hint]
    have hrun := (with_retry_run cfg op 0 (Nat.zero_le _) (by intro i hi; omega)).2
      _ hop0 (should_retry_api _ _ _)
    simp [tts_counted, hval, request_phase, ← hop, hrun, wrap_transport_errors]
  · intro tr m htr text v f hval
    simp [sync_tts_counted, hval, make_request_attempt, htr, wrap_transport_errors]

/-- Witness for the amended C1: under the default config an
always-timing-out transport is invoked 4 times (1 + 3 retries) and the
timeout is then wrapped into `APIError`; an always-500 transport is
invoked exactly once. -/
theorem conversion_retry_classification_witness :
    tts_counted defaultRetryConfig trTimeout "hello" none none
      = (.error (.apiError "Request timed out: t"), 4) ∧
    tts_counted defaultRetryConfig tr500 "hi there" none none
      = (.error (.apiError "API request failed with status 500: boom"), 1) := by
  constructor
  · exact (conversion_retry_classification defaultRetryConfig (by decide)).1
      (fun _ => "t") trTimeout (fun _ _ => rfl) "hello" none none (by decide)
  · exact (conversion_retry_classification defaultRetryConfig (by decide)).2.2.1
      ⟨500, none, "boom", []⟩ (by decide) tr500 (fun _ _ => rfl) "hi there" none none
      (by decide)

/-- Claim C5: a 429 response is classified as `QuotaExceeded` with the
message from the body `error` field when present and the fixed
daily-limit message otherwise; the quota kind is never retried, for any
attempt and config, even though 429 is in the default retryable-status
set; end to end, a conversion against an always-429 transport makes
exactly one invocation. -/
theorem quota_429_carveout (r : HttpResponse) (h429 : r.status_code = 429) :
    interpret_response r
      = .error (.quotaExceededError (r.body_error.getD quotaDefaultMsg)) ∧
    (∀ m n cfg, should_retry (.quotaExceededError m) n cfg = false) ∧
    defaultRetryConfig.retry_statuses.contains 429 = true ∧
    (∀ (tr : Transport), (∀ p i, tr p i = .ok r) →
      ∀ cfg text v f, validate_text text = .ok () →
        tts_counted cfg tr text v f
          = (.error (.quotaExceededError (r.body_error.getD quotaDefaultMsg)), 1)) := by
  have hint : interpret_response r
      = .error (.quotaExceededError (r.body_error.getD quotaDefaultMsg)) := by
    simp [interpret_response, h429]
  refine ⟨hint, should_retry_quota, by decide, ?_⟩
  intro tr htr cfg text v f hval
  set op := make_request_attempt tr (build_payload text v f) with hop
  have hop0 : op 0 = .error (.quotaExceededError (r.body_error.getD quotaDefaultMsg)) := by
    simp [hop, make_request_attempt, htr, hint]
  have hrun := (with_retry_run cfg op 0 (Nat.zero_le _) (by intro i hi; omega)).2
    _ hop0 (should_retry_quota _ _ _)
  simp [tts_counted, hval, request_phase, ← hop, hrun, wrap_transport_errors]

/-- Witness for C5: a 429 whose body carries an `error` field surfaces
that message with a single invocation under the default config. -/
theorem quota_429_carveout_witness :
    tts_counted defaultRetryConfig tr429 "Test" none none
      = (.error (.quotaExceededError "Quota exceeded"), 1) := by
  exact (quota_429_carveout ⟨429, some "Quota exceeded", "", []⟩ rfl).2.2.2
    tr429 (fun _ _ => rfl) defaultRetryConfig "Test" none none (by decide)

/-- Claim C6: conversion rejects an empty text and a text longer than
2000 units with a `Validation` error before any transport invocation
(the invocation count is 0 and the outcome does not depend on the
transport), accepts length 2000 exactly and rejects length 2001. -/
theorem validation_boundary :
    (∀ cfg tr v f, tts_counted cfg tr "" v f
      = (.error (.validationError "Text cannot be empty"), 0)) ∧
    (∀ text : String, text.length > 2000 → ∀ cfg tr v f,
      tts_counted cfg tr text v f = (.error (.validationError (lengthMsg text)), 0)) ∧
    (∀ text : String, 1 ≤ text.length → text.length ≤ 2000 →
      validate_text text = .ok ()) ∧
    (∀ text : String, text.length = 2001 →
      validate_text text = .error (.validationError (lengthMsg text))) := by
  refine ⟨?_, ?_, ?_, ?_⟩
  · intro cfg tr v f
    rfl
  · intro text h cfg tr v f
    have hval : validate_text text = .error (.validationError (lengthMsg text)) := by
      unfold validate_text
      rw [if_neg (by omega), if_pos (by simp [MAX_TEXT_LENGTH]; omega)]
    simp [tts_counted, hval]
  · intro text h1 h2
    unfold validate_text
    rw [if_neg (by omega), if_neg (by simp [MAX_TEXT_LENGTH]; omega)]
  · intro text h
    unfold validate_text
    rw [if_neg (by omega), if_pos (by simp [MAX_TEXT_LENGTH]; omega)]

/-- Witness for C6: the empty text and a 2001-character text are
rejected with no transport invocation; a 2000-character text passes
validation. -/
theorem validation_boundary_witness :
    tts_counted defaultRetryConfig tr200 "" none none
      = (.error (.validationError "Text cannot be empty"), 0) ∧
    validate_text (String.mk (List.replicate 2000 'A')) = .ok () ∧
    tts_counted defaultRetryConfig tr200 (String.mk (List.replicate 2001 'A')) none none
      = (.error (.validationError (lengthMsg (String.mk (List.replicate 2001 'A')))), 0) := by
  have hlen2000 : (String.mk (List.replicate 2000 'A')).length = 2000 := by
    show (List.replicate 2000 'A').length = 2000
    rw [List.length_replicate]
  have hlen2001 : (String.mk (List.replicate 2001 'A')).length = 2001 := by
    show (List.replicate 2001 'A').length = 2001
    rw [List.length_replicate]
  refine ⟨?_, ?_, ?_⟩
  · exact validation_boundary.1 defaultRetryConfig tr200 none none
  · exact validation_boundary.2.2.1 _ (by omega) (by omega)
  · exact validation_boundary.2.1 _ (by omega) defaultRetryConfig tr200 none none

/-- Gathering the tasks of a deterministic conversion list in start
order agrees with running the conversions sequentially. -/
theorem gather_eq_sequential (conv : String → Except Exc Bytes) :
    ∀ texts : List String, gather (texts.map conv) = batch_sequential conv texts := by
  intro texts
  induction texts with
  | nil => rfl
  | cons t ts ih =>
    cases hc : conv t with
    | error e => simp [gather, batch_sequential, hc]
    | ok a => simp [gather, batch_sequential, hc, ih]

/-- When `gather` returns a list of values, it has one entry per task,
aligned by index. -/
theorem gather_ok_spec :
    ∀ (es : List (Except Exc Bytes)) (rs : List Bytes), gather es = .ok rs →
      rs.length = es.length ∧
      ∀ i (hi : i < es.length) (hr : i < rs.length), es[i] = .ok rs[i] := by
  intro es
  induction es with
  | nil =>
    intro rs h
    simp only [gather] at h
    obtain rfl : ([] : List Bytes) = rs := by injection h
    exact ⟨rfl, by intro i hi; exact absurd hi (Nat.not_lt_zero i)⟩
  | cons e es ih =>
    intro rs h
    cases he : e with
    | error e₀ => rw [he] at h; simp [gather] at h
    | ok a =>
      rw [he] at h
      simp only [gather] at h
      cases hg : gather es with
      | error e₀ => rw [hg] at h; simp at h
      | ok rest =>
        rw [hg] at h
        obtain rfl : a :: rest = rs := by injection h
        obtain ⟨hlen, hidx⟩ := ih rest hg
        refine ⟨by simp [hlen], ?_⟩
        intro i hi hr
        cases i with
        | zero => simp
        | succ i =>
          simp only [List.getElem_cons_succ]
          exact hidx i (by simpa using hi) (by simpa using hr)

/-- Claim C8: batch conversion in concurrent mode returns exactly what
sequential mode returns for the same inputs through a deterministic
transport, and a successful concurrent batch has one result per input
text, aligned by index in input order. -/
theorem batch_order_equivalence (cfg : RetryConfig) (tr : Transport)
    (v : Option VoiceArg) (f : Option FormatArg) (texts : List String) :
    batch_text_to_speech cfg tr v f true texts
      = batch_text_to_speech cfg tr v f false texts ∧
    ∀ rs, batch_text_to_speech cfg tr v f true texts = .ok rs →
      rs.length = texts.length ∧
      ∀ i (hi : i < texts.length) (hr : i < rs.length),
        text_to_speech cfg tr texts[i] v f = .ok rs[i] := by
  constructor
  · simp only [batch_text_to_speech, if_pos, if_neg, Bool.false_eq_true, ite_true, ite_false]
    exact gather_eq_sequential _ texts
  · intro rs h
    simp only [batch_text_to_speech, ite_true] at h
    obtain ⟨hlen, hidx⟩ := gather_ok_spec _ rs h
    refine ⟨by simpa using hlen, ?_⟩
    intro i hi hr
    have hi' : i < (texts.map (fun t => text_to_speech cfg tr t v f)).length := by
      simpa using hi
    have hx := hidx i hi' hr
    simpa using hx

/-- Witness for C8: a 3-text batch through an always-successful
deterministic transport gives the same output in both modes, and that
output has 3 entries with each entry the conversion of the matching
input text. -/
theorem batch_order_equivalence_witness :
    batch_text_to_speech defaultRetryConfig tr200 none none true ["a", "b", "c"]
      = batch_text_to_speech defaultRetryConfig tr200 none none false ["a", "b", "c"] ∧
    ([[7], [7], [7]] : List Bytes).length = (["a", "b", "c"] : List String).length ∧
    text_to_speech defaultRetryConfig tr200 (["a", "b", "c"] : List String)[0] none none
      = .ok (([[7], [7], [7]] : List Bytes)[0]) := by
  have h := batch_order_equivalence defaultRetryConfig tr200 none none ["a", "b", "c"]
  have h2 := h.2 [[7], [7], [7]] (by decide)
  exact ⟨h.1, h2.1, h2.2 0 (by decide) (by decide)⟩

/-- Claim C9, counterexample: the only batch operation the SDK offers
aborts on partial failure in both of its modes: with a transport that
rejects the text `bad`, the batch over `["a", "bad", "c"]` surfaces
the authentication error rather than any per-item success-or-error
mapping. -/
theorem batch_no_result_collecting_cex :
    batch_text_to_speech defaultRetryConfig trFailBad none none true ["a", "bad", "c"]
      = .error (.authenticationError "Invalid API key") ∧
    batch_text_to_speech defaultRetryConfig trFailBad none none false ["a", "bad", "c"]
      = .error (.authenticationError "Invalid API key") := by
  exact ⟨by decide, by decide⟩

/-- If any conversion in a sequential batch fails, the batch fails. -/
theorem batch_sequential_fail (conv : String → Except Exc Bytes) :
    ∀ texts : List String, (∃ t ∈ texts, ∃ e, conv t = .error e) →
      ∃ e, batch_sequential conv texts = .error e := by
  intro texts
  induction texts with
  | nil =>
    intro h
    obtain ⟨t, ht, _⟩ := h
    exact absurd ht (List.not_mem_nil t)
  | cons t ts ih =>
    intro h
    cases hc : conv t with
    | error e => exact ⟨e, by simp [batch_sequential, hc]⟩
    | ok a =>
      obtain ⟨t₀, ht₀, e₀, he₀⟩ := h
      rcases List.mem_cons.mp ht₀ with rfl | hmem
      · rw [hc] at he₀
        simp at he₀
      · obtain ⟨e, he⟩ := ih ⟨t₀, hmem, e₀, he₀⟩
        exact ⟨e, by simp [batch_sequential, hc, he]⟩

/-- Claim C9, amended: the SDK offers no result-collecting batch
variant: in either mode, whenever any one text of a batch fails to
convert, the whole batch operation surfaces an error instead of a
per-item success-or-error mapping (per-item collection is left to
callers composing their own tasks outside the SDK). -/
theorem batch_aborts_on_partial_failure (cfg : RetryConfig) (tr : Transport)
    (v : Option VoiceArg) (f : Option FormatArg) (concurrent : Bool)
    (texts : List String)
    (h : ∃ t ∈ texts, ∃ e, text_to_speech cfg tr t v f = .error e) :
    ∃ e, batch_text_to_speech cfg tr v f concurrent texts = .error e := by
  cases concurrent with
  | true =>
    simp only [batch_text_to_speech, ite_true]
    rw [gather_eq_sequential]
    exact batch_sequential_fail _ texts h
  | false =>
    simp only [batch_text_to_speech, Bool.false_eq_true, ite_false]
    exact batch_sequential_fail _ texts h

/-- Witness for the amended C9: a concurrent batch containing the
rejected text `bad` surfaces an error. -/
theorem batch_aborts_on_partial_failure_witness :
    ∃ e, batch_text_to_speech defaultRetryConfig trFailBad none none true ["a", "bad"]
      = .error e := by
  exact batch_aborts_on_partial_failure defaultRetryConfig trFailBad none none true
    ["a", "bad"] ⟨"bad", by decide, .authenticationError "Invalid API key", by decide⟩

/-- Claim C10: the client performs no membership validation of the
voice or format arguments: for any text passing the length checks the
conversion always reaches the request phase with the assembled payload,
whatever the voice and format values; a supplied value appears in the
payload in its string form (enum members through `.value`, plain
strings verbatim) and an omitted value leaves the payload field
absent. -/
theorem voice_format_passthrough :
    (∀ text : String, validate_text text = .ok () →
      ∀ (va : Option VoiceArg) (fa : Option FormatArg) cfg tr,
        tts_counted cfg tr text va fa = request_phase cfg tr (build_payload text va fa)) ∧
    (∀ text s fs, build_payload text (some (.str s)) (some (.str fs))
      = ⟨text, some s, some fs⟩) ∧
    (∀ text vv ff, build_payload text (some (.enum vv)) (some (.enum ff))
      = ⟨text, some vv.value, some ff.value⟩) ∧
    (∀ text : String, build_payload text none none = ⟨text, none, none⟩) := by
  refine ⟨?_, ?_, ?_, ?_⟩
  · intro text hv va fa cfg tr
    simp [tts_counted, hv]
  · intro text s fs
    rfl
  · intro text vv ff
    rfl
  · intro text
    rfl

/-- Witness for C10: a voice string outside the documented voice list
and a format string outside the 4-element format set pass validation
untouched and appear verbatim in the payload. -/
theorem voice_format_passthrough_witness :
    tts_counted defaultRetryConfig tr200 "hi" (some (.str "NotAVoice")) (some (.str "midi"))
      = request_phase defaultRetryConfig tr200
          (build_payload "hi" (some (.str "NotAVoice")) (some (.str "midi"))) ∧
    build_payload "hi" (some (.str "NotAVoice")) (some (.str "midi"))
      = ⟨"hi", some "NotAVoice", some "midi"⟩ := by
  exact ⟨voice_format_passthrough.1 "hi" (by decide) (some (.str "NotAVoice"))
      (some (.str "midi")) defaultRetryConfig tr200,
    voice_format_passthrough.2.1 "hi" "NotAVoice" "midi"⟩

end YarnGPT
